import Mathlib

/-!
Shallow embedding of `src/lab_gen/services/conversation/conversation.py`
(class `ConversationService`) together with the collaborating pieces the
service consumes.  Pieces of the repository that are not present under
`src/` (the Cosmos-backed history store, the metadata record, the provider
enum, the LLM resolution and the pipeline's automatic history append) are
modelled from the spec; each such definition says so in its doc comment.
-/

namespace LabGen

/-- Modelled from the spec: `src/lab_gen/datatypes/models.py` is not under
`src/`.  The spec describes `provider` as "enum: one of a small fixed set of
LLM vendors".  The three members the service's `match` statement names are
modelled as constructors; any further member of the enum (an "unrecognized
provider value") is modelled by the `OTHER` constructor carrying its name. -/
inductive ModelProvider where
  | AZURE
  | VERTEX
  | BEDROCK
  | OTHER (name : String)
  deriving DecidableEq, Repr

/-- Modelled from the spec: `src/lab_gen/datatypes/metadata.py` is not under
`src/`.  "ConversationMetadata — immutable record describing how a session's
backend was configured: `provider`, `variant` (string identifier of the
specific model), `business_user` (opaque identifier of the end user/tenant)." -/
structure ConversationMetadata where
  provider : ModelProvider
  variant : String
  business_user : String
  deriving DecidableEq, Repr

/-- Modelled from the spec: `src/lab_gen/services/llm/lifetime.py` is not under
`src/`.  "Backend resolution: `get_backend(provider, variant) -> BackendHandle`,
pure function of the two enum/string inputs, no additional negotiation."  The
handle is modelled as the pair of inputs it was resolved from. -/
structure LLM where
  provider : ModelProvider
  variant : String
  deriving DecidableEq, Repr

/-- Modelled from the spec: pure resolution of a backend handle from provider
and variant (`get_llm(meta.provider, meta.variant)` in the source). -/
def get_llm (provider : ModelProvider) (variant : String) : LLM :=
  { provider, variant }

/-- A langchain `BaseMessage` as the service observes it: `_message_to_dict`
reads `message.type` and `message.content`. -/
structure BaseMessage where
  type : String
  content : String
  deriving DecidableEq, Repr

/-- The observers (langchain callbacks) `generate_config` can attach.  Each
constructor embeds one of the classes the source instantiates:
`LLMMetricsCounter(llm)`, the three provider-specific blocked-content
trackers, the default `BlockedContentTracker(llm)`, and the langfuse
`CallbackHandler` onto which the source writes `user_id` and `session_id`. -/
inductive Callback where
  | LLMMetricsCounter (llm : LLM)
  | AzureBlockedContentTracker (llm : LLM)
  | VertexBlockedContentTracker (llm : LLM)
  | BedrockBlockedContentTracker (llm : LLM)
  | BlockedContentTracker (llm : LLM)
  | LangfuseHandler (user_id : String) (session_id : String)
  deriving DecidableEq, Repr

/-- The `configurable` field bundle of the returned config dict
(`conversation.py`, lines 126-130). -/
structure Configurable where
  user_id : String
  conversation_id : String
  metadata : ConversationMetadata
  deriving DecidableEq, Repr

/-- The config dict returned by `generate_config` (lines 124-131). -/
structure Config where
  callbacks : List Callback
  configurable : Configurable
  deriving DecidableEq, Repr

/-- The process environment as the service reads it: the result of
`os.getenv("LANGFUSE_HOST")` (`none` when the variable is unset). -/
structure Env where
  langfuse_host : Option String
  deriving DecidableEq, Repr

/-- Python truthiness of `os.getenv("LANGFUSE_HOST")`: `None` and the empty
string are falsy (line 118 guards `if os.getenv("LANGFUSE_HOST"):`). -/
def Env.langfuseHost_truthy (env : Env) : Bool :=
  match env.langfuse_host with
  | none => false
  | some s => !s.isEmpty

/-- The blocked-content tracker chosen by the `match meta.provider` statement
(lines 106-114): three provider-specific cases and a wildcard default. -/
def blocked_content_counter (provider : ModelProvider) (llm : LLM) : Callback :=
  match provider with
  | ModelProvider.AZURE => Callback.AzureBlockedContentTracker llm
  | ModelProvider.VERTEX => Callback.VertexBlockedContentTracker llm
  | ModelProvider.BEDROCK => Callback.BedrockBlockedContentTracker llm
  | _ => Callback.BlockedContentTracker llm

/-- Embedding of `ConversationService.generate_config` (lines 94-131):
builds `[metrics_counter, blocked_content_counter]`, appends a langfuse
handler stamped with `meta.business_user` / `conversation_id` when the
`LANGFUSE_HOST` environment variable is truthy, and returns the config with
the `configurable` bundle `{user_id, conversation_id, metadata}`. -/
def generate_config (env : Env) (meta : ConversationMetadata)
    (conversation_id : String) (llm : LLM) : Config :=
  let metrics_counter := Callback.LLMMetricsCounter llm
  let blocked := blocked_content_counter meta.provider llm
  let callbacks := [metrics_counter, blocked]
  let callbacks :=
    if env.langfuseHost_truthy then
      callbacks ++ [Callback.LangfuseHandler meta.business_user conversation_id]
    else
      callbacks
  { callbacks
    configurable :=
      { user_id := meta.business_user
        conversation_id
        metadata := meta } }

/-- Modelled from the spec: the persisted record of the history store
(`src/lab_gen/services/cosmos/cosmos_db.py` is not under `src/`).  The store
is "keyed by user + session, returns ordered messages, supports
append/clear/delete-by-index, carries optional session metadata". -/
structure SessRecord where
  messages : List BaseMessage
  metadata : Option ConversationMetadata
  deriving DecidableEq, Repr

/-- A record no session has touched: empty history, no metadata. -/
def SessRecord.empty : SessRecord :=
  { messages := [], metadata := none }

/-- Modelled from the spec: the durable history store as a total map from
(user_id, conversation_id) to a persisted record — "resolution never fails
for an unknown id: it yields a handle over an empty history". -/
def Store := String → String → SessRecord

/-- Pointwise update of the store at one (user_id, conversation_id) key. -/
def Store.set (st : Store) (user_id conversation_id : String) (r : SessRecord) : Store :=
  fun u c => if u = user_id ∧ c = conversation_id then r else st u c

/-- The store in which no session has any record. -/
def Store.empty : Store := fun _ _ => SessRecord.empty

/-- The history handle returned by resolution, as the service reads it:
`history.messages` and `history.metadata`. -/
structure HistoryHandle where
  user_id : String
  conversation_id : String
  messages : List BaseMessage
  metadata : Option ConversationMetadata
  deriving DecidableEq, Repr

/-- Embedding of `ConversationService.get_message_history` (lines 191-215)
over the spec-modelled store: resolves the (user, conversation) record;
when the optional `metadata` argument is supplied it is attached to the
handle, otherwise the handle carries the stored metadata (if any). -/
def get_message_history (st : Store) (user_id conversation_id : String)
    (metadata : Option ConversationMetadata) : HistoryHandle :=
  let r := st user_id conversation_id
  { user_id
    conversation_id
    messages := r.messages
    metadata :=
      match metadata with
      | some m => some m
      | none => r.metadata }

/-- The error taxonomy the embedded operations can surface:
`NoConversationError(conversation_id)` from `lab_gen.datatypes.errors`,
Python's `KeyError` from `self.prompts[prompt_id]`, and the
index-out-of-range condition of the accessor's `delete`. -/
inductive ConvError where
  | NoConversationError (conversation_id : String)
  | KeyError (prompt_id : String)
  | IndexError
  deriving DecidableEq, Repr

/-- Role/content pair produced by `_message_to_dict` (lines 217-226). -/
structure MessageDict where
  role : String
  content : String
  deriving DecidableEq, Repr

/-- Embedding of `ConversationService._message_to_dict`:
`{"role": message.type, "content": message.content}`. -/
def message_to_dict (message : BaseMessage) : MessageDict :=
  { role := message.type, content := message.content }

/-- Embedding of `ConversationService.history` (lines 228-245): resolves the
log; if `history.messages` is truthy (non-empty) returns the mapped list,
otherwise raises `NoConversationError(conversation_id)`. -/
def historyOp (st : Store) (user_id conversation_id : String) :
    Except ConvError (List MessageDict) :=
  let history := get_message_history st user_id conversation_id none
  if history.messages.isEmpty then
    Except.error (ConvError.NoConversationError conversation_id)
  else
    Except.ok (history.messages.map message_to_dict)

/-- Embedding of `ConversationService.end` (lines 247-264): clears the log
when `history.messages` is non-empty, otherwise raises
`NoConversationError(conversation_id)`.  Per the spec, `clear()` removes the
whole persisted record ("a cleared session's id could in principle be reused
by `get`, which would then also fail session-not-found"), so the key is
reset to the empty record. -/
def endOp (st : Store) (user_id conversation_id : String) :
    Except ConvError Store :=
  let history := get_message_history st user_id conversation_id none
  if history.messages.isEmpty then
    Except.error (ConvError.NoConversationError conversation_id)
  else
    Except.ok (st.set user_id conversation_id SessRecord.empty)

/-- Embedding of `ConversationService.delete_history` (lines 274-291): if
`len(history.messages) > 0` delegates to the accessor's `delete(num_entries)`
— modelled from the spec: "removes exactly one turn at a zero-based position;
fails with an out-of-range condition if the index does not exist in the
current log" (the stored metadata is untouched) — otherwise raises
`NoConversationError(conversation_id)`. -/
def delete_historyOp (st : Store) (user_id conversation_id : String)
    (num_entries : Nat) : Except ConvError Store :=
  let r := st user_id conversation_id
  if r.messages.length > 0 then
    if num_entries < r.messages.length then
      Except.ok (st.set user_id conversation_id
        { messages := r.messages.eraseIdx num_entries
          metadata := r.metadata })
    else
      Except.error ConvError.IndexError
  else
    Except.error (ConvError.NoConversationError conversation_id)

/-- One entry of the `ChatPromptTemplate` message sequence the service
assembles.  A `StringPromptTemplate` from the prompt store is carried by
its identity (`humanTemplate`); `("human", "\x7binput\x7d")` is the
passthrough entry; `MessagesPlaceholder(variable_name="history")` is the
history placeholder. -/
inductive PromptMessage where
  | system (content : String)
  | humanTemplate (template : String)
  | humanInput
  | historyPlaceholder
  deriving DecidableEq, Repr

/-- The module-level `SYSTEM_MESSAGE` (lines 37-39). -/
def SYSTEM_MESSAGE : PromptMessage :=
  PromptMessage.system "You are a helpful AI bot, gifted at answering questions."

/-- The prompt store `self.prompts` consumed by `get_prompt`
(`self.prompts[prompt_id]`, line 272): a partial map from prompt id to
template; `none` embeds the `KeyError` case of Python's dict lookup. -/
def Prompts := String → Option String

/-- What `ConversationService.start` (lines 133-164) returns: the config,
the freshly generated conversation id, and the chain — embedded by the
prompt-message sequence it was built from together with the backend handle.
`start` performs no operation on the history store (it never calls
`get_message_history`), so no store appears in the result. -/
structure StartResult where
  config : Config
  conversation_id : String
  chainMessages : List PromptMessage
  llm : LLM
  deriving DecidableEq, Repr

/-- The second prompt entry `start` assembles (lines 150-156): when
`prompt_id != "default"` the template is looked up with
`self.get_prompt(prompt_id)`, i.e. `self.prompts[prompt_id]`, whose Python
dict lookup raises `KeyError` when the id is absent; otherwise the
passthrough `("human", "\x7binput\x7d")` entry is used. -/
def startPromptEntry (prompts : Prompts) (prompt_id : String) :
    Except ConvError PromptMessage :=
  if prompt_id ≠ "default" then
    match prompts prompt_id with
    | some t => Except.ok (PromptMessage.humanTemplate t)
    | none => Except.error (ConvError.KeyError prompt_id)
  else
    Except.ok PromptMessage.humanInput

/-- Embedding of `ConversationService.start` (lines 133-164).  The fresh
UUID minted by `uuid.uuid4()` is passed in as `conversation_id` (freshness =
no store key uses it).  Resolves the backend from `meta`, assembles
`[SYSTEM_MESSAGE, prompt]`, and returns the config produced by
`generate_config`.  `start` performs no operation on the history store (it
never calls `get_message_history`), so no store appears in its signature.
The metrics-sink increment (line 161) is an external side channel excluded
by the spec and not modelled. -/
def start (env : Env) (prompts : Prompts) (meta : ConversationMetadata)
    (prompt_id : String) (conversation_id : String) :
    Except ConvError StartResult :=
  let llm := get_llm meta.provider meta.variant
  match startPromptEntry prompts prompt_id with
  | Except.error e => Except.error e
  | Except.ok p =>
      Except.ok
        { config := generate_config env meta conversation_id llm
          conversation_id
          chainMessages := [SYSTEM_MESSAGE, p]
          llm }

/-- What `ConversationService.get` (lines 166-189) returns: the config and
the rebuilt chain, embedded as for `start`. -/
structure GetResult where
  config : Config
  chainMessages : List PromptMessage
  llm : LLM
  deriving DecidableEq, Repr

/-- Embedding of `ConversationService.get` (lines 166-189): resolves the
history handle with no metadata argument; if the handle carries stored
metadata, rebuilds the backend with `get_llm(meta.provider, meta.variant)`
and the config with `generate_config`, and builds the history-replay chain;
otherwise raises `NoConversationError(conversation_id)`. -/
def getOp (env : Env) (st : Store) (conversation_id user_id : String) :
    Except ConvError GetResult :=
  let history := get_message_history st user_id conversation_id none
  match history.metadata with
  | some meta =>
      let llm := get_llm meta.provider meta.variant
      Except.ok
        { config := generate_config env meta conversation_id llm
          chainMessages := [PromptMessage.historyPlaceholder, PromptMessage.humanInput]
          llm }
  | none => Except.error (ConvError.NoConversationError conversation_id)

/-- Modelled from the spec: one successful invocation of the pipeline built
by `create_chain` (the `RunnableWithMessageHistory` wrapper is external to
the repository).  "After each successful invocation, the Pipeline
automatically appends the user turn and the generated response turn to the
resolved history handle"; the handle is resolved through
`get_message_history` with the `configurable` fields
`{user_id, conversation_id, metadata}` of the call's config, which persists
the session metadata alongside the appended turns. -/
def invoke (cfg : Config) (st : Store) (input response : String) : Store :=
  let u := cfg.configurable.user_id
  let c := cfg.configurable.conversation_id
  let r := st u c
  st.set u c
    { messages := r.messages ++ [{ type := "human", content := input },
                                 { type := "ai", content := response }]
      metadata := some cfg.configurable.metadata }

/-- Whether a callback is one of the four safety-tracker classes (the three
provider-specific blocked-content trackers or the default tracker). -/
def Callback.isSafetyTracker : Callback → Bool
  | Callback.AzureBlockedContentTracker _ => true
  | Callback.VertexBlockedContentTracker _ => true
  | Callback.BedrockBlockedContentTracker _ => true
  | Callback.BlockedContentTracker _ => true
  | _ => false

/-! Concrete objects used by witnesses and counterexamples. -/

/-- A concrete metadata record (Azure backend, business user `u1`). -/
def meta0 : ConversationMetadata :=
  { provider := ModelProvider.AZURE, variant := "gpt", business_user := "u1" }

/-- A concrete environment with no tracing endpoint configured. -/
def env0 : Env := { langfuse_host := none }

/-- A concrete environment with a tracing endpoint configured. -/
def envT : Env := { langfuse_host := some "https://langfuse.example" }

/-- A concrete empty prompt store. -/
def prompts0 : Prompts := fun _ => none

/-- The backend handle resolved from `meta0`. -/
def llm0 : LLM := get_llm meta0.provider meta0.variant

/-- The config `generate_config` produces for `meta0` and session `c1`. -/
def cfg0 : Config := generate_config env0 meta0 "c1" llm0

/-- The store after one pipeline invocation on session `c1` of `meta0`,
starting from the empty store: two turns and the persisted metadata at
key `(u1, c1)`. -/
def st1 : Store := invoke cfg0 Store.empty "hello" "resp"

/-- The store `delete_history(u1, c1, 0)` produces from `st1`. -/
def stA : Store :=
  Store.set st1 "u1" "c1"
    { messages := (st1 "u1" "c1").messages.eraseIdx 0
      metadata := (st1 "u1" "c1").metadata }

/-- The store `delete_history(u1, c1, 0)` produces from `stA`: the log is
now empty but the stored metadata survives. -/
def stB : Store :=
  Store.set stA "u1" "c1"
    { messages := (stA "u1" "c1").messages.eraseIdx 0
      metadata := (stA "u1" "c1").metadata }

/-! Helper lemmas shared by the claim theorems. -/

/-- Reading the store after an update at the same key. -/
theorem Store.set_self (st : Store) (u c : String) (r : SessRecord) :
    st.set u c r u c = r := by
  simp [Store.set]

/-- Reading the store after an update at a different key. -/
theorem Store.set_ne (st : Store) (u c : String) (r : SessRecord) (u' c' : String)
    (h : ¬(u' = u ∧ c' = c)) : st.set u c r u' c' = st u' c' := by
  simp [Store.set, h]

/-- Resolution with no metadata argument returns the stored record's fields. -/
theorem get_message_history_none (st : Store) (u c : String) :
    get_message_history st u c none =
      { user_id := u, conversation_id := c,
        messages := (st u c).messages, metadata := (st u c).metadata } := rfl

/-- Shape of a successful `start`: config, conversation id and backend. -/
theorem start_ok_parts (env : Env) (prompts : Prompts) (meta : ConversationMetadata)
    (prompt_id conversation_id : String) (r : StartResult)
    (h : start env prompts meta prompt_id conversation_id = Except.ok r) :
    r.config = generate_config env meta conversation_id (get_llm meta.provider meta.variant) ∧
    r.conversation_id = conversation_id ∧
    r.llm = get_llm meta.provider meta.variant := by
  simp only [start] at h
  cases hp : startPromptEntry prompts prompt_id with
  | error e => rw [hp] at h; exact absurd h (by simp)
  | ok p =>
      rw [hp] at h
      injection h with h2
      subst h2
      exact ⟨rfl, rfl, rfl⟩

/-- C4: Safety-tracker selection is a pure function of `metadata.provider`
(the total function `blocked_content_counter`, always placed at position 1 of
the callbacks list): each of the four cases of the `match` statement attaches
its tracker variant — `AZURE`, `VERTEX`, `BEDROCK` their provider-specific
trackers, and every unrecognized provider value the default
`BlockedContentTracker` via the wildcard case, without raising an error. -/
theorem C4_provider_dispatch (env : Env) (meta : ConversationMetadata)
    (conversation_id : String) (llm : LLM) :
    (generate_config env meta conversation_id llm).callbacks[1]? =
      some (blocked_content_counter meta.provider llm) ∧
    blocked_content_counter ModelProvider.AZURE llm =
      Callback.AzureBlockedContentTracker llm ∧
    blocked_content_counter ModelProvider.VERTEX llm =
      Callback.VertexBlockedContentTracker llm ∧
    blocked_content_counter ModelProvider.BEDROCK llm =
      Callback.BedrockBlockedContentTracker llm ∧
    ∀ s : String,
      blocked_content_counter (ModelProvider.OTHER s) llm =
        Callback.BlockedContentTracker llm := by
  refine ⟨?_, rfl, rfl, rfl, fun s => rfl⟩
  simp only [generate_config]
  split <;> rfl

/-- C5: `end` raises `NoConversationError` exactly when the stored log is
empty; on a non-empty log it succeeds and clears the log, after which a
second `end` on the same session raises `NoConversationError` (ending an
already-ended session does not silently succeed). -/
theorem C5_end_semantics (st : Store) (user_id conversation_id : String) :
    ((st user_id conversation_id).messages = [] →
      endOp st user_id conversation_id =
        Except.error (ConvError.NoConversationError conversation_id)) ∧
    ((st user_id conversation_id).messages ≠ [] →
      ∃ st', endOp st user_id conversation_id = Except.ok st' ∧
        (st' user_id conversation_id).messages = [] ∧
        endOp st' user_id conversation_id =
          Except.error (ConvError.NoConversationError conversation_id)) := by
  constructor
  · intro h
    simp [endOp, get_message_history_none, h]
  · intro h
    refine ⟨st.set user_id conversation_id SessRecord.empty, ?_, ?_, ?_⟩
    · simp [endOp, get_message_history_none, h]
    · simp [Store.set_self, SessRecord.empty]
    · simp [endOp, get_message_history_none, Store.set_self, SessRecord.empty]

/-- Witness for C5 at concrete inputs: a one-message log for `(u1, c5)` is
cleared by `end` and a second `end` fails; on the empty store `end` fails
immediately. -/
theorem C5_witness :
    (∃ stE, endOp (Store.set Store.empty "u1" "c5"
        { messages := [{ type := "human", content := "hi" }], metadata := none })
        "u1" "c5" = Except.ok stE ∧
      (stE "u1" "c5").messages = [] ∧
      endOp stE "u1" "c5" = Except.error (ConvError.NoConversationError "c5")) ∧
    endOp Store.empty "u1" "c5" =
      Except.error (ConvError.NoConversationError "c5") := by
  refine ⟨(C5_end_semantics _ "u1" "c5").2 ?_, (C5_end_semantics _ "u1" "c5").1 ?_⟩
  · simp [Store.set_self]
  · rfl

/-- C6: `delete_history` on an empty log raises `NoConversationError`; on a
non-empty log with an index at or beyond the current length it raises the
index-out-of-range condition (not `NoConversationError`) and produces no new
store, so the log length is unchanged; on a valid index it succeeds and
removes exactly the one turn at that zero-based position, touching no other
key of the store. -/
theorem C6_delete_semantics (st : Store) (user_id conversation_id : String) (i : Nat) :
    ((st user_id conversation_id).messages = [] →
      delete_historyOp st user_id conversation_id i =
        Except.error (ConvError.NoConversationError conversation_id)) ∧
    ((st user_id conversation_id).messages ≠ [] →
      (st user_id conversation_id).messages.length ≤ i →
      delete_historyOp st user_id conversation_id i =
        Except.error ConvError.IndexError) ∧
    (i < (st user_id conversation_id).messages.length →
      ∃ st', delete_historyOp st user_id conversation_id i = Except.ok st' ∧
        (st' user_id conversation_id).messages =
          (st user_id conversation_id).messages.take i ++
            (st user_id conversation_id).messages.drop (i + 1) ∧
        (st' user_id conversation_id).messages.length + 1 =
          (st user_id conversation_id).messages.length ∧
        ∀ u' c', ¬(u' = user_id ∧ c' = conversation_id) →
          st' u' c' = st u' c') := by
  refine ⟨?_, ?_, ?_⟩
  · intro h
    simp [delete_historyOp, h]
  · intro h hle
    have hpos : 0 < (st user_id conversation_id).messages.length :=
      List.length_pos.mpr h
    have hnlt : ¬ i < (st user_id conversation_id).messages.length :=
      Nat.not_lt.mpr hle
    simp [delete_historyOp, hpos, hnlt]
  · intro hlt
    have hpos : 0 < (st user_id conversation_id).messages.length :=
      Nat.lt_of_le_of_lt (Nat.zero_le i) hlt
    refine ⟨st.set user_id conversation_id
      { messages := (st user_id conversation_id).messages.eraseIdx i
        metadata := (st user_id conversation_id).metadata }, ?_, ?_, ?_, ?_⟩
    · simp [delete_historyOp, hpos, hlt]
    · rw [Store.set_self]
      exact List.eraseIdx_eq_take_drop_succ _ i
    · rw [Store.set_self]
      simp only [List.length_eraseIdx, hlt, if_pos]
      omega
    · intro u' c' h
      exact Store.set_ne st user_id conversation_id _ u' c' h

/-- Witness for C6 at concrete inputs: on a two-message log for `(u1, c6)`,
deleting index 5 is out of range and deleting index 0 removes exactly the
first turn. -/
theorem C6_witness :
    delete_historyOp (Store.set Store.empty "u1" "c6"
        { messages := [{ type := "human", content := "a" },
                       { type := "ai", content := "b" }], metadata := none })
        "u1" "c6" 5 = Except.error ConvError.IndexError ∧
    ∃ stD, delete_historyOp (Store.set Store.empty "u1" "c6"
        { messages := [{ type := "human", content := "a" },
                       { type := "ai", content := "b" }], metadata := none })
        "u1" "c6" 0 = Except.ok stD ∧
      (stD "u1" "c6").messages =
        ((Store.set Store.empty "u1" "c6"
          { messages := [{ type := "human", content := "a" },
                         { type := "ai", content := "b" }], metadata := none })
          "u1" "c6").messages.take 0 ++
        ((Store.set Store.empty "u1" "c6"
          { messages := [{ type := "human", content := "a" },
                         { type := "ai", content := "b" }], metadata := none })
          "u1" "c6").messages.drop 1 ∧
      (stD "u1" "c6").messages.length + 1 =
        ((Store.set Store.empty "u1" "c6"
          { messages := [{ type := "human", content := "a" },
                         { type := "ai", content := "b" }], metadata := none })
          "u1" "c6").messages.length ∧
      ∀ u' c', ¬(u' = "u1" ∧ c' = "c6") →
        stD u' c' = (Store.set Store.empty "u1" "c6"
          { messages := [{ type := "human", content := "a" },
                         { type := "ai", content := "b" }], metadata := none }) u' c' := by
  constructor
  · exact (C6_delete_semantics _ "u1" "c6" 5).2.1 (by simp [Store.set_self])
      (by simp [Store.set_self])
  · exact (C6_delete_semantics _ "u1" "c6" 0).2.2 (by simp [Store.set_self])

/-- C7: `history` raises `NoConversationError` exactly when the stored log is
empty; otherwise it returns a list of the same length whose i-th element is
the role/content pair built from the type and content of the i-th stored
message, in insertion order. -/
theorem C7_history_semantics (st : Store) (user_id conversation_id : String) :
    (historyOp st user_id conversation_id =
        Except.error (ConvError.NoConversationError conversation_id) ↔
      (st user_id conversation_id).messages = []) ∧
    ((st user_id conversation_id).messages ≠ [] →
      ∃ out, historyOp st user_id conversation_id = Except.ok out ∧
        out.length = (st user_id conversation_id).messages.length ∧
        ∀ i : Nat, out[i]? =
          ((st user_id conversation_id).messages[i]?).map
            (fun m => { role := m.type, content := m.content : MessageDict })) := by
  constructor
  · by_cases h : (st user_id conversation_id).messages = [] <;>
      simp [historyOp, get_message_history_none, h]
  · intro h
    refine ⟨(st user_id conversation_id).messages.map message_to_dict, ?_, ?_, ?_⟩
    · simp [historyOp, get_message_history_none, h]
    · simp
    · intro i
      rw [List.getElem?_map]
      rfl

/-- Witness for C7 at concrete inputs: a two-message log for `(u1, c7)` is
returned as the corresponding role/content pairs. -/
theorem C7_witness :
    ∃ out, historyOp (Store.set Store.empty "u1" "c7"
        { messages := [{ type := "human", content := "q" },
                       { type := "ai", content := "a" }], metadata := none })
        "u1" "c7" = Except.ok out ∧
      out.length = ((Store.set Store.empty "u1" "c7"
        { messages := [{ type := "human", content := "q" },
                       { type := "ai", content := "a" }], metadata := none })
        "u1" "c7").messages.length ∧
      ∀ i : Nat, out[i]? =
        (((Store.set Store.empty "u1" "c7"
          { messages := [{ type := "human", content := "q" },
                         { type := "ai", content := "a" }], metadata := none })
          "u1" "c7").messages[i]?).map
          (fun m => { role := m.type, content := m.content : MessageDict }) :=
  (C7_history_semantics _ "u1" "c7").2 (by simp [Store.set_self])

/-- Counterexample to C1 as stated: `start` succeeds for `meta0` with fresh
id `c1`, yet — because `start` performs no write to the history store, so
the fresh id still maps to the empty record — the immediately following
`get("c1", "u1")` (with `u1` the business user recorded in `meta0`) raises
`NoConversationError` instead of succeeding. -/
theorem C1_counterexample :
    start env0 prompts0 meta0 "default" "c1" =
      Except.ok { config := generate_config env0 meta0 "c1" llm0
                  conversation_id := "c1"
                  chainMessages := [SYSTEM_MESSAGE, PromptMessage.humanInput]
                  llm := llm0 } ∧
    getOp env0 Store.empty "c1" "u1" =
      Except.error (ConvError.NoConversationError "c1") :=
  ⟨rfl, rfl⟩

/-- C1 amended: for a session started via `start` with metadata `m` and
fresh conversation id `c`, `get(c, m.business_user)` immediately after
`start` raises `NoConversationError` (nothing is persisted yet); after the
first pipeline invocation has persisted the metadata, `get(c,
m.business_user)` succeeds and rebuilds the backend from the same provider
and variant recorded in `m`. -/
theorem C1_get_after_first_invocation (env : Env) (prompts : Prompts)
    (meta : ConversationMetadata) (prompt_id conversation_id : String)
    (st : Store) (r : StartResult) (input response : String)
    (hstart : start env prompts meta prompt_id conversation_id = Except.ok r)
    (hfresh : st meta.business_user conversation_id = SessRecord.empty) :
    getOp env st conversation_id meta.business_user =
      Except.error (ConvError.NoConversationError conversation_id) ∧
    ∃ g, getOp env (invoke r.config st input response)
        conversation_id meta.business_user = Except.ok g ∧
      g.llm = get_llm meta.provider meta.variant ∧
      g.config.configurable.metadata = meta := by
  obtain ⟨hcfg, -, -⟩ :=
    start_ok_parts env prompts meta prompt_id conversation_id r hstart
  constructor
  · simp [getOp, get_message_history_none, hfresh, SessRecord.empty]
  · rw [hcfg]
    have hread : (invoke (generate_config env meta conversation_id
          (get_llm meta.provider meta.variant)) st input response)
        meta.business_user conversation_id =
        { messages := (st meta.business_user conversation_id).messages ++
            [{ type := "human", content := input },
             { type := "ai", content := response }]
          metadata := some meta } :=
      Store.set_self st meta.business_user conversation_id _
    refine ⟨{ config := generate_config env meta conversation_id
                (get_llm meta.provider meta.variant)
              chainMessages := [PromptMessage.historyPlaceholder,
                                PromptMessage.humanInput]
              llm := get_llm meta.provider meta.variant }, ?_, rfl, rfl⟩
    simp [getOp, get_message_history_none, hread]

/-- Witness for C1 amended at concrete inputs: session `c1` started from
`meta0`; `get` fails on the untouched store and succeeds after one
invocation. -/
theorem C1_witness :
    getOp env0 Store.empty "c1" meta0.business_user =
      Except.error (ConvError.NoConversationError "c1") ∧
    ∃ g, getOp env0 (invoke (generate_config env0 meta0 "c1" llm0)
        Store.empty "hi" "yo") "c1" meta0.business_user = Except.ok g ∧
      g.llm = get_llm meta0.provider meta0.variant ∧
      g.config.configurable.metadata = meta0 :=
  C1_get_after_first_invocation env0 prompts0 meta0 "default" "c1" Store.empty
    { config := generate_config env0 meta0 "c1" llm0
      conversation_id := "c1"
      chainMessages := [SYSTEM_MESSAGE, PromptMessage.humanInput]
      llm := llm0 } "hi" "yo" rfl rfl

/-- C2: `start` performs no write to the history store — its embedding takes
no store at all, because the source never touches the store during `start`
(it never calls `get_message_history`); hence for any store in which the
fresh id's log is empty, `history(user, c)` right after a successful `start`
raises `NoConversationError`. -/
theorem C2_start_no_write (env : Env) (prompts : Prompts)
    (meta : ConversationMetadata) (prompt_id conversation_id user_id : String)
    (st : Store) (r : StartResult)
    (hstart : start env prompts meta prompt_id conversation_id = Except.ok r)
    (hfresh : (st user_id conversation_id).messages = []) :
    r.conversation_id = conversation_id ∧
    (st user_id r.conversation_id).messages = [] ∧
    historyOp st user_id r.conversation_id =
      Except.error (ConvError.NoConversationError r.conversation_id) := by
  obtain ⟨-, hc, -⟩ :=
    start_ok_parts env prompts meta prompt_id conversation_id r hstart
  subst hc
  refine ⟨rfl, hfresh, ?_⟩
  simp [historyOp, get_message_history_none, hfresh]

/-- Witness for C2 at concrete inputs: starting session `c2` from `meta0`
on the empty store, `history("u1", "c2")` raises `NoConversationError`. -/
theorem C2_witness :
    ∃ r, start env0 prompts0 meta0 "default" "c2" = Except.ok r ∧
      r.conversation_id = "c2" ∧
      (Store.empty "u1" r.conversation_id).messages = [] ∧
      historyOp Store.empty "u1" r.conversation_id =
        Except.error (ConvError.NoConversationError r.conversation_id) :=
  ⟨_, rfl, C2_start_no_write env0 prompts0 meta0 "default" "c2" "u1"
    Store.empty _ rfl rfl⟩

/-- Counterexample to C3 as stated: with an empty prompt store, `start`
called with `prompt_id = "p1"` (not the sentinel `"default"`) does not
succeed — the dict lookup `self.prompts[prompt_id]` raises `KeyError`. -/
theorem C3_counterexample :
    start env0 prompts0 meta0 "p1" "c3" =
      Except.error (ConvError.KeyError "p1") := rfl

/-- C3 amended: `start` succeeds for every metadata whenever `prompt_id` is
the sentinel `"default"` or names a template present in the prompt store,
returning the supplied fresh conversation id; when `prompt_id` is not the
sentinel and is absent from the prompt store, it raises the lookup failure
(`KeyError`) instead. -/
theorem C3_start_success_condition (env : Env) (prompts : Prompts)
    (meta : ConversationMetadata) (prompt_id conversation_id : String) :
    (prompt_id = "default" →
      ∃ r, start env prompts meta prompt_id conversation_id = Except.ok r ∧
        r.conversation_id = conversation_id) ∧
    (∀ t, prompts prompt_id = some t →
      ∃ r, start env prompts meta prompt_id conversation_id = Except.ok r ∧
        r.conversation_id = conversation_id) ∧
    (prompt_id ≠ "default" → prompts prompt_id = none →
      start env prompts meta prompt_id conversation_id =
        Except.error (ConvError.KeyError prompt_id)) := by
  refine ⟨?_, ?_, ?_⟩
  · intro h
    subst h
    exact ⟨_, rfl, rfl⟩
  · intro t ht
    by_cases h : prompt_id = "default"
    · subst h
      exact ⟨_, rfl, rfl⟩
    · refine ⟨{ config := generate_config env meta conversation_id
                  (get_llm meta.provider meta.variant)
                conversation_id
                chainMessages := [SYSTEM_MESSAGE, PromptMessage.humanTemplate t]
                llm := get_llm meta.provider meta.variant }, ?_, rfl⟩
      simp [start, startPromptEntry, h, ht]
  · intro h hn
    simp [start, startPromptEntry, h, hn]

/-- Witness for C3 amended at concrete inputs: with a prompt store holding
only id `p`, `start` succeeds for the sentinel and for `p`, and raises
`KeyError` for the absent id `q`. -/
theorem C3_witness :
    (∃ r, start env0 (fun i => if i = "p" then some "T" else none) meta0
        "default" "c3a" = Except.ok r ∧ r.conversation_id = "c3a") ∧
    (∃ r, start env0 (fun i => if i = "p" then some "T" else none) meta0
        "p" "c3b" = Except.ok r ∧ r.conversation_id = "c3b") ∧
    start env0 (fun i => if i = "p" then some "T" else none) meta0
        "q" "c3c" = Except.error (ConvError.KeyError "q") :=
  ⟨(C3_start_success_condition env0 (fun i => if i = "p" then some "T" else none)
      meta0 "default" "c3a").1 rfl,
   (C3_start_success_condition env0 (fun i => if i = "p" then some "T" else none)
      meta0 "p" "c3b").2.1 "T" rfl,
   (C3_start_success_condition env0 (fun i => if i = "p" then some "T" else none)
      meta0 "q" "c3c").2.2 (by decide) rfl⟩

/-- C8: every config produced (the shape `start` and `get` both obtain from
`generate_config`) carries exactly the metrics counter plus exactly one
safety tracker when no tracing endpoint is configured; when one is
configured, exactly one additional trace observer is appended, stamped with
the conversation id as its session id and the metadata's business user as
its user id. -/
theorem C8_observer_lists (env : Env) (meta : ConversationMetadata)
    (conversation_id : String) (llm : LLM) (st : Store) (prompts : Prompts)
    (prompt_id cid user_id : String) :
    (env.langfuseHost_truthy = false →
      ∃ t, t.isSafetyTracker = true ∧
        (generate_config env meta conversation_id llm).callbacks =
          [Callback.LLMMetricsCounter llm, t]) ∧
    (env.langfuseHost_truthy = true →
      ∃ t, t.isSafetyTracker = true ∧
        (generate_config env meta conversation_id llm).callbacks =
          [Callback.LLMMetricsCounter llm, t,
           Callback.LangfuseHandler meta.business_user conversation_id]) ∧
    (∀ r, start env prompts meta prompt_id cid = Except.ok r →
      r.config = generate_config env meta cid (get_llm meta.provider meta.variant)) ∧
    (∀ g m, (st user_id cid).metadata = some m →
      getOp env st cid user_id = Except.ok g →
      g.config = generate_config env m cid (get_llm m.provider m.variant)) := by
  have htracker : (blocked_content_counter meta.provider llm).isSafetyTracker = true := by
    cases meta.provider <;> rfl
  refine ⟨?_, ?_, ?_, ?_⟩
  · intro h
    exact ⟨blocked_content_counter meta.provider llm, htracker,
      by simp [generate_config, h]⟩
  · intro h
    exact ⟨blocked_content_counter meta.provider llm, htracker,
      by simp [generate_config, h]⟩
  · intro r hr
    exact (start_ok_parts env prompts meta prompt_id cid r hr).1
  · intro g m hm hg
    simp [getOp, get_message_history_none, hm] at hg
    rw [← hg]

/-- Witness for C8 at concrete inputs: the callbacks attached for `meta0`
with tracing unset (`env0`) and with a tracing endpoint set (`envT`). -/
theorem C8_witness :
    (∃ t, t.isSafetyTracker = true ∧
      (generate_config env0 meta0 "c8" llm0).callbacks =
        [Callback.LLMMetricsCounter llm0, t]) ∧
    (∃ t, t.isSafetyTracker = true ∧
      (generate_config envT meta0 "c8" llm0).callbacks =
        [Callback.LLMMetricsCounter llm0, t,
         Callback.LangfuseHandler meta0.business_user "c8"]) :=
  ⟨(C8_observer_lists env0 meta0 "c8" llm0 Store.empty prompts0
      "default" "c8" "u1").1 rfl,
   (C8_observer_lists envT meta0 "c8" llm0 Store.empty prompts0
      "default" "c8" "u1").2.1 rfl⟩

/-- C10: the configurable bundle of every config equates `user_id` with
`metadata.business_user` and `conversation_id` with the session id; hence a
pipeline invocation appends its two turns (and the metadata) under the key
`(business_user, conversation_id)`, `history` called with the business user
returns exactly those turns, and every other store key is untouched — so
`history`/`end`/`delete_history` address the turns a pipeline wrote only
when called with `user_id = metadata.business_user`. -/
theorem C10_business_user_namespace (env : Env) (meta : ConversationMetadata)
    (conversation_id : String) (llm : LLM) (st : Store)
    (input response : String) :
    (generate_config env meta conversation_id llm).configurable.user_id =
      meta.business_user ∧
    (generate_config env meta conversation_id llm).configurable.conversation_id =
      conversation_id ∧
    (invoke (generate_config env meta conversation_id llm) st input response)
        meta.business_user conversation_id =
      { messages := (st meta.business_user conversation_id).messages ++
          [{ type := "human", content := input },
           { type := "ai", content := response }]
        metadata := some meta } ∧
    historyOp (invoke (generate_config env meta conversation_id llm) st input response)
        meta.business_user conversation_id =
      Except.ok (((st meta.business_user conversation_id).messages ++
        [({ type := "human", content := input } : BaseMessage),
         ({ type := "ai", content := response } : BaseMessage)]).map message_to_dict) ∧
    (∀ u' c', ¬(u' = meta.business_user ∧ c' = conversation_id) →
      (invoke (generate_config env meta conversation_id llm) st input response)
          u' c' = st u' c') := by
  have hread : (invoke (generate_config env meta conversation_id llm) st input response)
      meta.business_user conversation_id =
      { messages := (st meta.business_user conversation_id).messages ++
          [{ type := "human", content := input },
           { type := "ai", content := response }]
        metadata := some meta } :=
    Store.set_self st meta.business_user conversation_id _
  refine ⟨rfl, rfl, hread, ?_, ?_⟩
  · simp [historyOp, get_message_history_none, hread]
  · intro u' c' h
    exact Store.set_ne st meta.business_user conversation_id _ u' c' h

/-- Witness for C10 at concrete inputs: one invocation for `meta0` on
session `c10` leaves the foreign key `(u2, c10)` untouched, and `history`
under the business user returns the two appended turns. -/
theorem C10_witness :
    (invoke (generate_config env0 meta0 "c10" llm0) Store.empty "q" "a")
        "u2" "c10" = Store.empty "u2" "c10" ∧
    historyOp (invoke (generate_config env0 meta0 "c10" llm0) Store.empty "q" "a")
        meta0.business_user "c10" =
      Except.ok (((Store.empty meta0.business_user "c10").messages ++
        [({ type := "human", content := "q" } : BaseMessage),
         ({ type := "ai", content := "a" } : BaseMessage)]).map message_to_dict) :=
  ⟨(C10_business_user_namespace env0 meta0 "c10" llm0 Store.empty "q" "a").2.2.2.2
      "u2" "c10" (by decide),
   (C10_business_user_namespace env0 meta0 "c10" llm0 Store.empty "q" "a").2.2.2.1⟩

/-- Counterexample to C9 as stated: starting from one pipeline invocation on
session `c1` (store `st1`), two valid `delete_history` calls legitimately
reach the store `stB`, whose log for `(u1, c1)` is empty while its metadata
survives.  There `get("c1", "u1")` succeeds instead of raising
session-not-found, although the addressed session has an empty history. -/
theorem C9_counterexample :
    delete_historyOp st1 "u1" "c1" 0 = Except.ok stA ∧
    delete_historyOp stA "u1" "c1" 0 = Except.ok stB ∧
    (stB "u1" "c1").messages = [] ∧
    getOp env0 stB "c1" "u1" =
      Except.ok { config := cfg0
                  chainMessages := [PromptMessage.historyPlaceholder,
                                    PromptMessage.humanInput]
                  llm := llm0 } :=
  ⟨rfl, rfl, rfl, rfl⟩

/-- C9 amended: `get` raises `NoConversationError` exactly when the
addressed session id has no stored metadata, while `history`, `end` and
`delete_history` raise it exactly when the stored log is empty; in every
case the raised error carries the offending conversation id. -/
theorem C9_error_conditions (env : Env) (st : Store)
    (user_id conversation_id : String) (i : Nat) :
    (getOp env st conversation_id user_id =
        Except.error (ConvError.NoConversationError conversation_id) ↔
      (st user_id conversation_id).metadata = none) ∧
    (historyOp st user_id conversation_id =
        Except.error (ConvError.NoConversationError conversation_id) ↔
      (st user_id conversation_id).messages = []) ∧
    (endOp st user_id conversation_id =
        Except.error (ConvError.NoConversationError conversation_id) ↔
      (st user_id conversation_id).messages = []) ∧
    (delete_historyOp st user_id conversation_id i =
        Except.error (ConvError.NoConversationError conversation_id) ↔
      (st user_id conversation_id).messages = []) := by
  refine ⟨?_, ?_, ?_, ?_⟩
  · cases hm : (st user_id conversation_id).metadata <;>
      simp [getOp, get_message_history_none, hm]
  · by_cases h : (st user_id conversation_id).messages = [] <;>
      simp [historyOp, get_message_history_none, h]
  · by_cases h : (st user_id conversation_id).messages = [] <;>
      simp [endOp, get_message_history_none, h]
  · by_cases h : (st user_id conversation_id).messages = []
    · simp [delete_historyOp, h]
    · have hpos : 0 < (st user_id conversation_id).messages.length :=
        List.length_pos.mpr h
      by_cases hlt : i < (st user_id conversation_id).messages.length <;>
        simp [delete_historyOp, hpos, hlt, h]

end LabGen
